import Mathlib

/-!
Verification of the ChatDocument repository against its natural-language
specification.  The definitions below are a shallow embedding of the
relevant source files:

* `useWebSocket.ts` (the client connection manager `createWebSocketManager`)
* `FileUpload.tsx` (client-side upload validation)
* `ChatInput.tsx` (chat input submit logic)
* the SQL schema (`conversations` / `messages` / `attachments` tables with
  `ON DELETE CASCADE` and the title default)
* the server-side stream relay, which is not present in the sources and is
  therefore modelled from the specification where indicated.
-/

namespace ChatDocument

/-! ## Common value types (from types/chat.ts) -/

/-- A `FileAttachment` as carried in chat payloads (`kind` models the
`type` field, whose value is `"image"` or `"pdf"`). -/
structure FileAttachment where
  id : String
  name : String
  kind : String
  url : String
  mime_type : String
deriving DecidableEq, Repr

/-- The body of a chat request as assembled by `sendMessage`:
`\x7b type: "chat", conversation_id, content, attachments \x7d`. -/
structure ChatRequest where
  conversation_id : String
  content : String
  attachments : List FileAttachment
deriving DecidableEq, Repr

/-- Escaping of one character inside a JSON string literal, as
`JSON.stringify` performs it for the characters that occur here. -/
def jsonEscapeChar (c : Char) : String :=
  if c = '\\' then "\\\\"
  else if c = '"' then "\\\""
  else if c = '\n' then "\\n"
  else if c = '\t' then "\\t"
  else if c = '\r' then "\\r"
  else String.singleton c

/-- Escaping of a whole string for inclusion in a JSON document. -/
def jsonEscape (s : String) : String :=
  String.join (s.data.map jsonEscapeChar)

/-- A JSON string literal. -/
def jsonStr (s : String) : String :=
  "\"" ++ jsonEscape s ++ "\""

/-- Serialization (`JSON.stringify`) of one attachment object, with the key order used when
the object is built in `handleSubmit`. -/
def stringifyAttachment (a : FileAttachment) : String :=
  "\x7b\"id\":" ++ jsonStr a.id ++
    ",\"name\":" ++ jsonStr a.name ++
    ",\"type\":" ++ jsonStr a.kind ++
    ",\"url\":" ++ jsonStr a.url ++
    ",\"mime_type\":" ++ jsonStr a.mime_type ++ "\x7d"

/-- Serialization (`JSON.stringify`) of the chat request object built by `sendMessage`. -/
def stringifyChatRequest (r : ChatRequest) : String :=
  "\x7b\"type\":\"chat\",\"conversation_id\":" ++ jsonStr r.conversation_id ++
    ",\"content\":" ++ jsonStr r.content ++
    ",\"attachments\":[" ++
    String.intercalate "," (r.attachments.map stringifyAttachment) ++ "]\x7d"

/-! ## WebSocket connection manager (from createWebSocketManager) -/

/-- Browser `WebSocket.readyState` values. -/
inductive ReadyState where
  | CONNECTING
  | OPEN
  | CLOSING
  | CLOSED
deriving DecidableEq, Repr

/-- One underlying browser socket: an identity (so we can tell whether the
manager kept or replaced the socket), its ready state, and the list of
frames transmitted on it, in order. -/
structure Socket where
  sockId : Nat
  readyState : ReadyState
  sent : List String
deriving DecidableEq, Repr

/-- Keep-alive interval used by the manager: `setInterval(..., 30000)`. -/
def pingIntervalMs : Nat := 30000

/-- Reconnect delay used by the manager: `setTimeout(..., 3000)`. -/
def reconnectDelayMs : Nat := 3000

/-- The mutable state of `createWebSocketManager`: the socket reference
`ws` (`none` models `ws === null`), the keep-alive timer (`some n` models an
active `setInterval` with period `n` ms), the pending reconnect timer
(`some n` models an active `setTimeout` with delay `n` ms), the consumer
reference count, and a counter used to give fresh sockets fresh ids. -/
structure ManagerState where
  ws : Option Socket
  pingInterval : Option Nat
  reconnectTimeout : Option Nat
  connectionCount : Int
  nextSockId : Nat
deriving DecidableEq, Repr

/-- Initial state of the module-level singleton manager. -/
def initialManager : ManagerState :=
  { ws := none
    pingInterval := none
    reconnectTimeout := none
    connectionCount := 0
    nextSockId := 0 }

/-- Body of `connect()` after the early return: clear any pending reconnect
timeout and open a fresh socket (`new WebSocket(...)` starts in state
CONNECTING with nothing sent yet). -/
def openFreshSocket (s : ManagerState) : ManagerState :=
  { s with
    reconnectTimeout := none
    ws := some { sockId := s.nextSockId, readyState := .CONNECTING, sent := [] }
    nextSockId := s.nextSockId + 1 }

/-- Function `connect()`: increment the reference count; if the socket is already
OPEN or CONNECTING return, otherwise clear any pending reconnect and open a
fresh socket. -/
def connect (s : ManagerState) : ManagerState :=
  let s := { s with connectionCount := s.connectionCount + 1 }
  match s.ws with
  | some sock =>
      if sock.readyState = .OPEN ∨ sock.readyState = .CONNECTING then s
      else openFreshSocket s
  | none => openFreshSocket s

/-- Function `cleanup()`: clear the keep-alive interval. -/
def cleanup (s : ManagerState) : ManagerState :=
  { s with pingInterval := none }

/-- Function `disconnect()`: decrement the reference count; when it has reached
zero, clamp it to zero, run `cleanup()`, clear any pending reconnect
timeout, and close and drop the socket. -/
def disconnect (s : ManagerState) : ManagerState :=
  let s := { s with connectionCount := s.connectionCount - 1 }
  if s.connectionCount ≤ 0 then
    { s with
      connectionCount := 0
      pingInterval := none
      reconnectTimeout := none
      ws := none }
  else s

/-- The `ws.onopen` handler: the socket has transitioned to OPEN and the
handler starts the keep-alive interval (`setInterval(..., 30000)`). -/
def onOpen (s : ManagerState) : ManagerState :=
  match s.ws with
  | some sock =>
      { s with
        ws := some { sock with readyState := .OPEN }
        pingInterval := some pingIntervalMs }
  | none => s

/-- The JSON frame sent by the keep-alive tick:
`JSON.stringify(\x7b type: "ping" \x7d)`. -/
def pingFrame : String := "\x7b\"type\":\"ping\"\x7d"

/-- One firing of the keep-alive interval: `if (ws?.readyState === OPEN)
ws.send(JSON.stringify(\x7b type: "ping" \x7d))`. -/
def pingTick (s : ManagerState) : ManagerState :=
  match s.ws with
  | some sock =>
      if sock.readyState = .OPEN then
        { s with ws := some { sock with sent := sock.sent ++ [pingFrame] } }
      else s
  | none => s

/-- The `ws.onclose` handler: the socket has transitioned to CLOSED; the
handler runs `cleanup()` and, only when `connectionCount > 0`, schedules a
single reconnect attempt via `setTimeout(connect, 3000)`. -/
def onClose (s : ManagerState) : ManagerState :=
  let s := { s with
    ws := s.ws.map (fun sock => { sock with readyState := .CLOSED })
    pingInterval := none }
  if s.connectionCount > 0 then
    { s with reconnectTimeout := some reconnectDelayMs }
  else s

/-- A payload handed to the manager's `send(data)`: the keep-alive ping or
a chat request (the two objects the sources ever pass). -/
inductive Payload where
  | ping
  | chat (req : ChatRequest)
deriving DecidableEq, Repr

/-- Serialization `JSON.stringify(data)` for the payloads that are sent. -/
def stringifyPayload : Payload → String
  | .ping => pingFrame
  | .chat r => stringifyChatRequest r

/-- Function `send(data)`: when the socket is absent or its `readyState` is not
OPEN, return `false` without touching any state (the manager has no queue,
so nothing is retained for later retry); when the socket is OPEN, transmit
`JSON.stringify(data)` and return `true`. -/
def send (s : ManagerState) (data : Payload) : Bool × ManagerState :=
  match s.ws with
  | some sock =>
      if sock.readyState = .OPEN then
        (true, { s with
          ws := some { sock with sent := sock.sent ++ [stringifyPayload data] } })
      else (false, s)
  | none => (false, s)

/-! Consumer-driven operations, for stating properties over arbitrary
mount/unmount sequences. -/

/-- One consumer lifecycle operation on the manager. -/
inductive ConsumerOp where
  | connectOp
  | disconnectOp
deriving DecidableEq, Repr

/-- Apply one consumer operation. -/
def applyOp (s : ManagerState) : ConsumerOp → ManagerState
  | .connectOp => connect s
  | .disconnectOp => disconnect s

/-- Apply a sequence of consumer operations, left to right. -/
def applyOps (s : ManagerState) (ops : List ConsumerOp) : ManagerState :=
  ops.foldl applyOp s

/-- Property: after every operation of the sequence the reference count is
at least one (the count never drops to zero at any intermediate point). -/
def countStaysPositive : ManagerState → List ConsumerOp → Prop
  | _, [] => True
  | s, op :: rest =>
      1 ≤ (applyOp s op).connectionCount ∧ countStaysPositive (applyOp s op) rest

instance : ∀ s ops, Decidable (countStaysPositive s ops) := by
  intro s ops
  induction ops generalizing s with
  | nil => exact isTrue trivial
  | cons op rest ih =>
      have : Decidable (1 ≤ (applyOp s op).connectionCount ∧
          countStaysPositive (applyOp s op) rest) :=
        @instDecidableAnd _ _ _ (ih (applyOp s op))
      exact this

/-! ## Client-side upload validation (from FileUpload.tsx) -/

/-- The fixed allow-list `ACCEPTED_TYPES` of media types. -/
def ACCEPTED_TYPES : List String :=
  ["image/jpeg", "image/png", "image/gif", "image/webp", "application/pdf"]

/-- Constant `MAX_FILE_SIZE = 25 * 1024 * 1024` (25MB). -/
def MAX_FILE_SIZE : Nat := 25 * 1024 * 1024

/-- A browser `File` as seen by `handleFileSelect`: name, declared media
type and size in bytes. -/
structure BrowserFile where
  name : String
  mime : String
  size : Nat
deriving DecidableEq, Repr

/-- Outcome of `handleFileSelect` for one selected file: rejected
client-side with a per-file alert (no network call), or handed to
`onUpload` (a network call). -/
inductive FileOutcome where
  | rejectedUnsupportedType
  | rejectedTooLarge
  | uploadAttempted
deriving DecidableEq, Repr

/-- The per-file branch of the `handleFileSelect` loop: unsupported type is
alerted and skipped (`continue`), then oversize is alerted and skipped, and
only a file passing both checks reaches `onUpload(file)`. -/
def classifyFile (f : BrowserFile) : FileOutcome :=
  if ¬ f.mime ∈ ACCEPTED_TYPES then .rejectedUnsupportedType
  else if f.size > MAX_FILE_SIZE then .rejectedTooLarge
  else .uploadAttempted

/-- The whole `handleFileSelect` loop over the selected files, recording
each file's outcome in order. -/
def handleFileSelect (selected : List BrowserFile) : List (BrowserFile × FileOutcome) :=
  selected.map (fun f => (f, classifyFile f))

/-! ## Chat input submit (from ChatInput.tsx) -/

/-- An `UploadedFile` held in the chat input's `files` state. -/
structure UploadedFile where
  id : String
  name : String
  kind : String
  url : String
  mime_type : String
deriving DecidableEq, Repr

/-- The conversion performed by `handleSubmit`:
`files.map((f) => (\x7b id, name, type, url, mime_type \x7d))`. -/
def toAttachment (f : UploadedFile) : FileAttachment :=
  { id := f.id, name := f.name, kind := f.kind, url := f.url
    mime_type := f.mime_type }

/-- Whitespace trimming as `String.prototype.trim` performs it: drop the
whitespace characters from both ends of the text. -/
def jsTrim (s : String) : String :=
  ⟨((s.data.dropWhile Char.isWhitespace).reverse.dropWhile Char.isWhitespace).reverse⟩

/-- The `ChatInput` component state consulted by `handleSubmit`: the text
field, the uploaded files, and the `disabled` / `isStreaming` props. -/
structure ChatInputState where
  message : String
  files : List UploadedFile
  disabled : Bool
  isStreaming : Bool
deriving DecidableEq, Repr

/-- Function `handleSubmit`: return early when the trimmed message is empty and no
file is attached, or when disabled or streaming; otherwise call
`onSendMessage(trimmedMessage, attachments)` and reset the text field and
the file list.  The first component is the message handed to
`onSendMessage` (`none` when nothing is sent), the second the state
afterwards. -/
def handleSubmit (st : ChatInputState) :
    Option (String × List FileAttachment) × ChatInputState :=
  let trimmedMessage := jsTrim st.message
  if trimmedMessage = "" ∧ st.files = [] then (none, st)
  else if st.disabled ∨ st.isStreaming then (none, st)
  else
    (some (trimmedMessage, st.files.map toAttachment),
     { st with message := "", files := [] })

/-! ## Database schema (from the initial SQL migration) -/

/-- A row of the `conversations` table. -/
structure ConversationRow where
  id : Nat
  title : String
  created_at : Nat
  updated_at : Nat
deriving DecidableEq, Repr

/-- A row of the `messages` table (`conversation_id REFERENCES
conversations ON DELETE CASCADE`). -/
structure MessageRow where
  id : Nat
  conversation_id : Nat
  role : String
  content : String
  created_at : Nat
deriving DecidableEq, Repr

/-- A row of the `attachments` table (`message_id` and `conversation_id`
both `ON DELETE CASCADE`). -/
structure AttachmentRow where
  id : Nat
  message_id : Nat
  conversation_id : Nat
  name : String
  kind : String
  url : String
  mime_type : String
  created_at : Nat
deriving DecidableEq, Repr

/-- The three persisted tables. -/
structure Database where
  conversations : List ConversationRow
  messages : List MessageRow
  attachments : List AttachmentRow
deriving DecidableEq, Repr

/-- Title default of the `conversations` table:
`title VARCHAR(255) NOT NULL DEFAULT 'New Conversation'`. -/
def defaultTitle : String := "New Conversation"

/-- Statement `DELETE FROM conversations WHERE id = cid` with the schema's cascade
semantics: the conversation row goes away, every message with that
`conversation_id` is cascade-deleted, and every attachment whose
`conversation_id` is the deleted conversation or whose `message_id` is one
of the cascade-deleted messages is cascade-deleted. -/
def deleteConversation (db : Database) (cid : Nat) : Database :=
  let deletedMessageIds :=
    (db.messages.filter (fun m => m.conversation_id = cid)).map (fun m => m.id)
  { conversations := db.conversations.filter (fun c => ¬ c.id = cid)
    messages := db.messages.filter (fun m => ¬ m.conversation_id = cid)
    attachments := db.attachments.filter
      (fun a => ¬ (a.conversation_id = cid ∨ deletedMessageIds.contains a.message_id)) }

/-- Statement `INSERT INTO conversations` as issued by the create endpoint: the title
is the request's title when present, else the schema default; `created_at`
and `updated_at` take the insertion time.  Returns the created row and the
new table contents. -/
def createConversation (db : Database) (title : Option String) (freshId now : Nat) :
    ConversationRow × Database :=
  let row : ConversationRow :=
    { id := freshId, title := title.getD defaultTitle
      created_at := now, updated_at := now }
  (row, { db with conversations := db.conversations ++ [row] })

/-- Modelled from the spec: the rename/auto-title update endpoint (the
backend service is not among the sources; per the spec the title is
"mutable, defaults to a placeholder, later overwritten by an auto-generated
summary").  An `UPDATE conversations SET title = .., updated_at = now WHERE
id = cid`: it rewrites only the `title` and `updated_at` columns of the
matching row. -/
def updateConversationTitle (db : Database) (cid : Nat) (newTitle : String) (now : Nat) :
    Database :=
  { db with conversations :=
      db.conversations.map (fun c =>
        if c.id = cid then { c with title := newTitle, updated_at := now } else c) }

/-! ## Stream relay events and the client's handling of them -/

/-- A tagged event object delivered over the socket, as dispatched by the
client's `handleMessage` switch. -/
inductive ServerEvent where
  | messageSaved (id role content : String)
  | streamStart
  | streamChunk (content : String)
  | streamEnd (id content : String)
  | titleUpdated (conversation_id title : String)
  | errorEvent (message : String)
deriving DecidableEq, Repr

/-- Concatenation of streamed token contents in delivery order. -/
def concatChunks : List String → String
  | [] => ""
  | c :: rest => c ++ concatChunks rest

/-- Modelled from the spec: the server-side stream relay (the backend
service is not among the sources).  Per the spec it "re-emits the model's
token stream back over the same connection as a sequence of
start/chunk/end events, finally persisting the assembled response": one
`stream_start`, one `stream_chunk` per model token, and one `stream_end`
carrying the persisted assistant message's id and assembled content. -/
def relayEvents (chunks : List String) (savedId : String) : List ServerEvent :=
  ServerEvent.streamStart ::
    chunks.map ServerEvent.streamChunk ++
      [ServerEvent.streamEnd savedId (concatChunks chunks)]

/-- Modelled from the spec: the content of the assistant message the server
persists at the end of the turn is the assembled response, the
concatenation of the streamed tokens. -/
def persistedAssistantContent (chunks : List String) : String :=
  concatChunks chunks

/-- A message held in the `Chat` component's `messages` state. -/
structure ClientMessage where
  id : String
  conversation_id : String
  role : String
  content : String
deriving DecidableEq, Repr

/-- The `Chat` component state touched by the stream callbacks. -/
structure ClientState where
  messages : List ClientMessage
  streamingContent : String
  isStreaming : Bool
deriving DecidableEq, Repr

/-- The client's handling of one inbound event: the `handleMessage` switch
of `useWebSocket` composed with the callbacks the `Chat` component
installs (`onStreamStart` clears `streamingContent`, `onStreamChunk`
appends to it, `onStreamEnd` appends the complete assistant message and
clears it, `onError` clears it; `onMessageSaved` is a no-op and
`onTitleUpdated` touches only the conversation list). -/
def handleEvent (conversationId : String) (st : ClientState) : ServerEvent → ClientState
  | .messageSaved _ _ _ => st
  | .streamStart => { st with isStreaming := true, streamingContent := "" }
  | .streamChunk c => { st with streamingContent := st.streamingContent ++ c }
  | .streamEnd savedId content =>
      { st with
        isStreaming := false
        messages := st.messages ++
          [{ id := savedId, conversation_id := conversationId
             role := "assistant", content := content }]
        streamingContent := "" }
  | .titleUpdated _ _ => st
  | .errorEvent _ => { st with isStreaming := false, streamingContent := "" }

/-- Process a delivered event sequence in order. -/
def runClient (conversationId : String) (st : ClientState) (evs : List ServerEvent) :
    ClientState :=
  evs.foldl (handleEvent conversationId) st

/-! ## Helper lemmas about the connection manager -/

theorem connect_of_active (s : ManagerState) (sock : Socket)
    (h : s.ws = some sock)
    (hrs : sock.readyState = .OPEN ∨ sock.readyState = .CONNECTING) :
    connect s = { s with connectionCount := s.connectionCount + 1 } := by
  unfold connect
  simp only [h]
  rw [if_pos hrs]

theorem connect_count (s : ManagerState) :
    (connect s).connectionCount = s.connectionCount + 1 := by
  unfold connect openFreshSocket
  cases hws : s.ws with
  | none => simp [hws]
  | some sock =>
      by_cases hrs : sock.readyState = .OPEN ∨ sock.readyState = .CONNECTING <;>
        simp [hws, hrs]

theorem disconnect_of_retained (s : ManagerState) (h : 2 ≤ s.connectionCount) :
    disconnect s = { s with connectionCount := s.connectionCount - 1 } := by
  unfold disconnect
  have hno : ¬ (s.connectionCount - 1 ≤ 0) := by omega
  simp [hno]

theorem disconnect_of_last (s : ManagerState) (h : s.connectionCount ≤ 1) :
    disconnect s =
      { s with connectionCount := 0, pingInterval := none,
               reconnectTimeout := none, ws := none } := by
  unfold disconnect
  have hyes : s.connectionCount - 1 ≤ 0 := by omega
  simp [hyes]

theorem disconnect_count_nonneg (s : ManagerState) :
    0 ≤ (disconnect s).connectionCount := by
  unfold disconnect
  by_cases hle : s.connectionCount - 1 ≤ 0
  · simp [hle]
  · simp [hle]
    omega

theorem applyOp_count_nonneg (s : ManagerState) (op : ConsumerOp)
    (h : 0 ≤ s.connectionCount) : 0 ≤ (applyOp s op).connectionCount := by
  cases op with
  | connectOp =>
      show 0 ≤ (connect s).connectionCount
      rw [connect_count]
      omega
  | disconnectOp => exact disconnect_count_nonneg s

theorem applyOps_count_nonneg (ops : List ConsumerOp) (s : ManagerState)
    (h : 0 ≤ s.connectionCount) : 0 ≤ (applyOps s ops).connectionCount := by
  induction ops generalizing s with
  | nil => simpa [applyOps]
  | cons op rest ih =>
      have h1 : 0 ≤ (applyOp s op).connectionCount := applyOp_count_nonneg s op h
      have : applyOps s (op :: rest) = applyOps (applyOp s op) rest := rfl
      rw [this]
      exact ih (applyOp s op) h1

theorem disconnect_retained_of_count (s : ManagerState)
    (h : 1 ≤ (disconnect s).connectionCount) : 2 ≤ s.connectionCount := by
  by_cases hle : s.connectionCount - 1 ≤ 0
  · have := disconnect_of_last s (by omega)
    rw [this] at h
    simp at h
  · omega

theorem applyOps_ws_of_positive (ops : List ConsumerOp) (s : ManagerState)
    (sock : Socket) (hws : s.ws = some sock) (hrs : sock.readyState = .OPEN)
    (hpos : countStaysPositive s ops) :
    (applyOps s ops).ws = some sock := by
  induction ops generalizing s with
  | nil => simpa [applyOps]
  | cons op rest ih =>
      obtain ⟨h1, h2⟩ := hpos
      have hstep : applyOps s (op :: rest) = applyOps (applyOp s op) rest := rfl
      rw [hstep]
      cases op with
      | connectOp =>
          have hc : connect s = { s with connectionCount := s.connectionCount + 1 } :=
            connect_of_active s sock hws (Or.inl hrs)
          refine ih (applyOp s .connectOp) ?_ h2

          show (connect s).ws = some sock
          rw [hc]
          exact hws
      | disconnectOp =>
          have h2le : 2 ≤ s.connectionCount := disconnect_retained_of_count s h1
          have hd : disconnect s = { s with connectionCount := s.connectionCount - 1 } :=
            disconnect_of_retained s h2le
          refine ih (applyOp s .disconnectOp) ?_ h2
          show (disconnect s).ws = some sock
          rw [hd]
          exact hws

/-! ## Sample states used by the witnesses -/

/-- An OPEN socket with nothing sent yet. -/
def sampleSock : Socket := { sockId := 0, readyState := .OPEN, sent := [] }

/-- A manager state with one consumer and an open socket. -/
def sampleOpenManager : ManagerState :=
  { ws := some sampleSock
    pingInterval := some pingIntervalMs
    reconnectTimeout := none
    connectionCount := 1
    nextSockId := 1 }

/-! ## Claim theorems for the connection manager -/

/-- C2: every call to the manager's `send` either returns `false` with no
transmission and the whole manager state unchanged (socket absent or not
OPEN — in particular nothing is queued for a later retry), or, when the
socket is OPEN, transmits the JSON-serialized payload on the socket and
returns `true`. -/
theorem send_contract (s : ManagerState) (data : Payload) :
    (s.ws = none → send s data = (false, s)) ∧
    (∀ sock, s.ws = some sock → ¬ sock.readyState = .OPEN →
      send s data = (false, s)) ∧
    (∀ sock, s.ws = some sock → sock.readyState = .OPEN →
      send s data = (true, { s with
        ws := some { sock with sent := sock.sent ++ [stringifyPayload data] } })) := by
  refine ⟨?_, ?_, ?_⟩
  · intro h
    unfold send
    simp only [h]
  · intro sock h hrs
    unfold send
    simp only [h]
    rw [if_neg hrs]
  · intro sock h hrs
    unfold send
    simp only [h]
    rw [if_pos hrs]

/-- Witness for C2 at a concrete open state and a concrete closed state. -/
theorem send_contract_witness :
    send sampleOpenManager .ping =
      (true, { sampleOpenManager with
        ws := some { sampleSock with
          sent := sampleSock.sent ++ [stringifyPayload .ping] } }) ∧
    send initialManager .ping = (false, initialManager) :=
  ⟨(send_contract sampleOpenManager .ping).2.2 sampleSock rfl rfl,
   (send_contract initialManager .ping).1 rfl⟩

/-- C3: when the socket closes while the reference count is positive, the
`onclose` handler schedules exactly one reconnect attempt, always after the
same fixed delay of 3000 ms (the single `reconnectTimeout` slot, no backoff
growth); when it closes with no registered consumer, the handler schedules
nothing (the timer slot is left exactly as it was). -/
theorem onClose_reconnect (s : ManagerState) :
    (0 < s.connectionCount →
      (onClose s).reconnectTimeout = some reconnectDelayMs) ∧
    (s.connectionCount ≤ 0 →
      (onClose s).reconnectTimeout = s.reconnectTimeout) ∧
    reconnectDelayMs = 3000 := by
  refine ⟨?_, ?_, rfl⟩
  · intro h
    unfold onClose
    simp [h]
  · intro h
    have hno : ¬ 0 < s.connectionCount := by omega
    unfold onClose
    simp [hno]

/-- Witness for C3: closing with one registered consumer schedules the
3000 ms reconnect; closing the torn-down manager schedules nothing. -/
theorem onClose_reconnect_witness :
    (onClose sampleOpenManager).reconnectTimeout = some reconnectDelayMs ∧
    (onClose initialManager).reconnectTimeout = initialManager.reconnectTimeout :=
  ⟨(onClose_reconnect sampleOpenManager).1 (by decide),
   (onClose_reconnect initialManager).2.1 (by decide)⟩

/-- C6: the manager is reference-counted: `connect` increments the count
and never replaces a socket that is OPEN or CONNECTING; `disconnect`
decrements the count, leaves the socket and both timers untouched while the
count stays positive, and closes the socket and cancels both timers exactly
when the count reaches zero; consequently the same socket survives any
consumer connect/disconnect sequence during which the count never drops to
zero. -/
theorem refcount_lifecycle (s : ManagerState) :
    ((connect s).connectionCount = s.connectionCount + 1) ∧
    (∀ sock, s.ws = some sock →
      sock.readyState = .OPEN ∨ sock.readyState = .CONNECTING →
      (connect s).ws = s.ws) ∧
    (1 ≤ s.connectionCount →
      (disconnect s).connectionCount = s.connectionCount - 1) ∧
    (2 ≤ s.connectionCount →
      (disconnect s).ws = s.ws ∧ (disconnect s).pingInterval = s.pingInterval ∧
      (disconnect s).reconnectTimeout = s.reconnectTimeout) ∧
    (s.connectionCount ≤ 1 →
      (disconnect s).ws = none ∧ (disconnect s).pingInterval = none ∧
      (disconnect s).reconnectTimeout = none ∧ (disconnect s).connectionCount = 0) ∧
    (∀ sock ops, s.ws = some sock → sock.readyState = .OPEN →
      countStaysPositive s ops → (applyOps s ops).ws = some sock) := by
  refine ⟨connect_count s, ?_, ?_, ?_, ?_, ?_⟩
  · intro sock h hrs
    rw [connect_of_active s sock h hrs]
  · intro h1
    by_cases h2 : 2 ≤ s.connectionCount
    · rw [disconnect_of_retained s h2]
    · rw [disconnect_of_last s (by omega)]
      show (0 : Int) = s.connectionCount - 1
      omega
  · intro h2
    rw [disconnect_of_retained s h2]
    exact ⟨rfl, rfl, rfl⟩
  · intro h1
    rw [disconnect_of_last s h1]
    exact ⟨rfl, rfl, rfl, rfl⟩
  · intro sock ops h hrs hpos
    exact applyOps_ws_of_positive ops s sock h hrs hpos

/-- Witness for C6: with one consumer and an open socket, a second
consumer mounting and unmounting leaves the very same socket in place. -/
theorem refcount_lifecycle_witness :
    (applyOps sampleOpenManager
      [ConsumerOp.connectOp, ConsumerOp.disconnectOp]).ws = some sampleSock :=
  (refcount_lifecycle sampleOpenManager).2.2.2.2.2 sampleSock
    [ConsumerOp.connectOp, ConsumerOp.disconnectOp] rfl rfl (by decide)

/-- C7: the `onopen` handler starts the keep-alive interval with the fixed
30000 ms period; a keep-alive tick transmits the ping frame when the socket
is OPEN and does nothing at all when there is no socket or the socket is
not OPEN (so no ping is ever sent while no socket is open); the `onclose`
handler cancels the keep-alive interval. -/
theorem keepAlive_lifecycle (s : ManagerState) :
    (∀ sock, s.ws = some sock → (onOpen s).pingInterval = some pingIntervalMs) ∧
    ((onClose s).pingInterval = none) ∧
    (s.ws = none → pingTick s = s) ∧
    (∀ sock, s.ws = some sock → ¬ sock.readyState = .OPEN → pingTick s = s) ∧
    (∀ sock, s.ws = some sock → sock.readyState = .OPEN →
      pingTick s =
        { s with ws := some { sock with sent := sock.sent ++ [pingFrame] } }) ∧
    pingIntervalMs = 30000 := by
  refine ⟨?_, ?_, ?_, ?_, ?_, rfl⟩
  · intro sock h
    unfold onOpen
    simp only [h]
  · unfold onClose
    by_cases h : 0 < s.connectionCount <;> simp [h]
  · intro h
    unfold pingTick
    simp only [h]
  · intro sock h hrs
    unfold pingTick
    simp only [h]
    rw [if_neg hrs]
  · intro sock h hrs
    unfold pingTick
    simp only [h]
    rw [if_pos hrs]

/-- Witness for C7 at concrete states: a tick on the open sample manager
transmits the ping frame, and a tick on the torn-down manager is a no-op. -/
theorem keepAlive_lifecycle_witness :
    pingTick sampleOpenManager =
      { sampleOpenManager with
        ws := some { sampleSock with sent := sampleSock.sent ++ [pingFrame] } } ∧
    pingTick initialManager = initialManager :=
  ⟨(keepAlive_lifecycle sampleOpenManager).2.2.2.2.1 sampleSock rfl rfl,
   (keepAlive_lifecycle initialManager).2.2.1 rfl⟩

/-- C9: starting from any state with a nonnegative reference count, any
sequence of consumer connects and disconnects leaves the count nonnegative
(`disconnect` clamps it at zero), and from a fully torn-down state
(count zero, no socket) a subsequent `connect` opens a fresh CONNECTING
socket, sets the count to one and leaves no pending reconnect. -/
theorem count_nonneg_and_fresh (s : ManagerState) (ops : List ConsumerOp) :
    (0 ≤ s.connectionCount → 0 ≤ (applyOps s ops).connectionCount) ∧
    (s.connectionCount ≤ 1 → (disconnect s).connectionCount = 0) ∧
    (s.connectionCount = 0 → s.ws = none →
      (connect s).ws =
        some { sockId := s.nextSockId, readyState := .CONNECTING, sent := [] } ∧
      (connect s).connectionCount = 1 ∧
      (connect s).reconnectTimeout = none) := by
  refine ⟨applyOps_count_nonneg ops s, ?_, ?_⟩
  · intro h
    rw [disconnect_of_last s h]
  · intro hc hw
    unfold connect openFreshSocket
    refine ⟨?_, ?_, ?_⟩ <;> simp [hw, hc]

/-- Witness for C9: two stray disconnects followed by a connect on the
fresh manager keep the count nonnegative, and a connect on the torn-down
manager opens a fresh socket. -/
theorem count_nonneg_and_fresh_witness :
    (0 ≤ (applyOps initialManager
      [ConsumerOp.disconnectOp, ConsumerOp.disconnectOp,
       ConsumerOp.connectOp]).connectionCount) ∧
    (connect initialManager).ws =
      some { sockId := initialManager.nextSockId, readyState := .CONNECTING,
             sent := [] } :=
  ⟨(count_nonneg_and_fresh initialManager
      [ConsumerOp.disconnectOp, ConsumerOp.disconnectOp, ConsumerOp.connectOp]).1
      (by decide),
   ((count_nonneg_and_fresh initialManager []).2.2 rfl rfl).1⟩

/-! ## Claim theorems for upload validation and the chat input -/

/-- C5: every selected file is classified by `handleFileSelect`; a file
whose media type is outside the fixed allow-list is rejected client-side
(so no network call is made for it), a file of an allowed type whose size
strictly exceeds `MAX_FILE_SIZE = 26214400` bytes is likewise rejected, and
only a file passing both checks reaches `onUpload`; the allow-list is
exactly \x7bimage/jpeg, image/png, image/gif, image/webp,
application/pdf\x7d. -/
theorem upload_validation (selected : List BrowserFile) (f : BrowserFile)
    (hf : f ∈ selected) :
    (f, classifyFile f) ∈ handleFileSelect selected ∧
    (¬ f.mime ∈ ACCEPTED_TYPES →
      classifyFile f = .rejectedUnsupportedType) ∧
    (f.mime ∈ ACCEPTED_TYPES → MAX_FILE_SIZE < f.size →
      classifyFile f = .rejectedTooLarge) ∧
    (f.mime ∈ ACCEPTED_TYPES → f.size ≤ MAX_FILE_SIZE →
      classifyFile f = .uploadAttempted) ∧
    MAX_FILE_SIZE = 26214400 ∧
    ACCEPTED_TYPES =
      ["image/jpeg", "image/png", "image/gif", "image/webp", "application/pdf"] := by
  refine ⟨?_, ?_, ?_, ?_, by decide, rfl⟩
  · unfold handleFileSelect
    exact List.mem_map_of_mem (fun g => (g, classifyFile g)) hf
  · intro h
    unfold classifyFile
    rw [if_pos h]
  · intro h hsize
    unfold classifyFile
    rw [if_neg (by simpa using h), if_pos (by omega)]
  · intro h hsize
    unfold classifyFile
    rw [if_neg (by simpa using h), if_neg (by omega)]

/-- Witness for C5: a BMP file is rejected for its type, an oversize PDF
for its size, and a small PNG is handed to the uploader. -/
theorem upload_validation_witness :
    classifyFile { name := "a.bmp", mime := "image/bmp", size := 10 } =
      .rejectedUnsupportedType ∧
    classifyFile { name := "b.pdf", mime := "application/pdf", size := 26214401 } =
      .rejectedTooLarge ∧
    classifyFile { name := "c.png", mime := "image/png", size := 26214400 } =
      .uploadAttempted :=
  ⟨(upload_validation [{ name := "a.bmp", mime := "image/bmp", size := 10 }]
      { name := "a.bmp", mime := "image/bmp", size := 10 }
      (by decide)).2.1 (by decide),
   (upload_validation [{ name := "b.pdf", mime := "application/pdf", size := 26214401 }]
      { name := "b.pdf", mime := "application/pdf", size := 26214401 }
      (by decide)).2.2.1 (by decide) (by decide),
   (upload_validation [{ name := "c.png", mime := "image/png", size := 26214400 }]
      { name := "c.png", mime := "image/png", size := 26214400 }
      (by decide)).2.2.2.1 (by decide) (by decide)⟩

/-- C10: `handleSubmit` sends nothing when the trimmed text is empty and
no file is attached, and nothing when the input is disabled or streaming
(in both cases the state is untouched); otherwise it passes onward exactly
the trimmed text together with the attachments converted from the current
files, and resets the text field and the file list to empty. -/
theorem submit_contract (st : ChatInputState) :
    (jsTrim st.message = "" ∧ st.files = [] → handleSubmit st = (none, st)) ∧
    (st.disabled = true ∨ st.isStreaming = true → handleSubmit st = (none, st)) ∧
    (¬ (jsTrim st.message = "" ∧ st.files = []) →
      st.disabled = false → st.isStreaming = false →
      handleSubmit st =
        (some (jsTrim st.message, st.files.map toAttachment),
         { st with message := "", files := [] })) := by
  refine ⟨?_, ?_, ?_⟩
  · intro h
    unfold handleSubmit
    rw [if_pos h]
  · intro h
    unfold handleSubmit
    by_cases hempty : jsTrim st.message = "" ∧ st.files = []
    · rw [if_pos hempty]
    · rw [if_neg hempty, if_pos (by
        rcases h with h | h
        · exact Or.inl (by simp [h])
        · exact Or.inr (by simp [h]))]
  · intro hempty hdis hstr
    unfold handleSubmit
    rw [if_neg hempty, if_neg (by simp [hdis, hstr])]

/-- Witness for C10 at concrete inputs: a padded message is sent trimmed
and the state is reset; a whitespace-only message without files is not
sent; a streaming input is not sent. -/
theorem submit_contract_witness :
    handleSubmit { message := " hi there ", files := [], disabled := false,
                   isStreaming := false } =
      (some (jsTrim " hi there ",
             ([] : List UploadedFile).map toAttachment),
       { message := "", files := [], disabled := false, isStreaming := false }) ∧
    handleSubmit { message := "   ", files := [], disabled := false,
                   isStreaming := false } =
      (none, { message := "   ", files := [], disabled := false,
               isStreaming := false }) ∧
    handleSubmit { message := "hi", files := [], disabled := false,
                   isStreaming := true } =
      (none, { message := "hi", files := [], disabled := false,
               isStreaming := true }) :=
  ⟨(submit_contract _).2.2 (by decide) rfl rfl,
   (submit_contract _).1 (by constructor <;> decide),
   (submit_contract _).2.1 (Or.inr rfl)⟩

/-! ## Claim theorems for the database schema -/

/-- C4: deleting a conversation removes its row, every message whose
`conversation_id` references it, and every attachment that references it
either through its own `conversation_id` or through the `message_id` of one
of the cascade-deleted messages: afterwards no surviving row references the
deleted conversation. -/
theorem cascade_delete (db : Database) (cid : Nat) :
    (∀ c, c ∈ (deleteConversation db cid).conversations → ¬ c.id = cid) ∧
    (∀ m, m ∈ (deleteConversation db cid).messages → ¬ m.conversation_id = cid) ∧
    (∀ a, a ∈ (deleteConversation db cid).attachments →
      ¬ a.conversation_id = cid ∧
      ∀ m, m ∈ db.messages → m.conversation_id = cid → ¬ a.message_id = m.id) := by
  refine ⟨?_, ?_, ?_⟩
  · intro c hc
    unfold deleteConversation at hc
    simp only [List.mem_filter, decide_eq_true_eq] at hc
    exact hc.2
  · intro m hm
    unfold deleteConversation at hm
    simp only [List.mem_filter, decide_eq_true_eq] at hm
    exact hm.2
  · intro a ha
    unfold deleteConversation at ha
    simp only [List.mem_filter, decide_eq_true_eq, not_or] at ha
    obtain ⟨-, hconv, hmsg⟩ := ha
    refine ⟨hconv, ?_⟩
    intro m hm hmc heq
    apply hmsg
    rw [heq]
    exact List.elem_eq_true_of_mem
      (List.mem_map_of_mem (fun x => x.id)
        (List.mem_filter.mpr ⟨hm, by simpa using hmc⟩))

/-- Witness for C4 on a concrete two-conversation database: after deleting
conversation 1 the surviving message of conversation 2 does not reference
conversation 1. -/
theorem cascade_delete_witness :
    ¬ ({ id := 11, conversation_id := 2, role := "user", content := "yo",
         created_at := 0 } : MessageRow).conversation_id = 1 :=
  (cascade_delete
    { conversations :=
        [{ id := 1, title := "A", created_at := 0, updated_at := 0 },
         { id := 2, title := "B", created_at := 0, updated_at := 0 }]
      messages :=
        [{ id := 10, conversation_id := 1, role := "user", content := "hi",
           created_at := 0 },
         { id := 11, conversation_id := 2, role := "user", content := "yo",
           created_at := 0 }]
      attachments :=
        [{ id := 20, message_id := 10, conversation_id := 1, name := "f",
           kind := "image", url := "u", mime_type := "image/png", created_at := 0 }] }
    1).2.1
    { id := 11, conversation_id := 2, role := "user", content := "yo",
      created_at := 0 }
    (by decide)

/-- C8: creating a conversation without an explicit title yields a row
whose title is the schema default `'New Conversation'` with the fresh id
and the creation time; a later title update rewrites the title of the
matching row while the id and `created_at` of every row are unchanged. -/
theorem title_default_and_update (db : Database) (freshId now cid now2 : Nat)
    (t : String) :
    (createConversation db none freshId now).1.title = "New Conversation" ∧
    (createConversation db none freshId now).1.id = freshId ∧
    (createConversation db none freshId now).1.created_at = now ∧
    ((updateConversationTitle db cid t now2).conversations.map
        (fun c => (c.id, c.created_at)) =
      db.conversations.map (fun c => (c.id, c.created_at))) ∧
    (∀ c, c ∈ (updateConversationTitle db cid t now2).conversations →
      c.id = cid → c.title = t) := by
  refine ⟨rfl, rfl, rfl, ?_, ?_⟩
  · unfold updateConversationTitle
    rw [List.map_map]
    apply List.map_congr_left
    intro c _
    by_cases h : c.id = cid <;> simp [h]
  · intro c hc hid
    unfold updateConversationTitle at hc
    rw [List.mem_map] at hc
    obtain ⟨a, -, ha⟩ := hc
    by_cases h : a.id = cid
    · rw [if_pos h] at ha
      rw [← ha]
    · rw [if_neg h] at ha
      rw [← ha] at hid
      exact absurd hid h

/-- Witness for C8 at a concrete database: the created row carries the
default title, and after renaming conversation 1 its row carries the new
title while ids and creation times are untouched. -/
theorem title_default_and_update_witness :
    (createConversation
      { conversations := [], messages := [], attachments := [] }
      none 1 5).1.title = "New Conversation" ∧
    (∀ c, c ∈ (updateConversationTitle
        { conversations := [{ id := 1, title := "New Conversation",
                              created_at := 5, updated_at := 5 }],
          messages := [], attachments := [] } 1 "Budget talk" 9).conversations →
      c.id = 1 → c.title = "Budget talk") :=
  ⟨(title_default_and_update
      { conversations := [], messages := [], attachments := [] } 1 5 0 0 "x").1,
   (title_default_and_update
      { conversations := [{ id := 1, title := "New Conversation",
                            created_at := 5, updated_at := 5 }],
        messages := [], attachments := [] } 0 0 1 9 "Budget talk").2.2.2.2⟩

/-! ## Claim theorem for the stream relay -/

theorem runClient_streamChunks (cid : String) (st : ClientState)
    (chunks : List String) :
    runClient cid st (chunks.map ServerEvent.streamChunk) =
      { st with streamingContent := st.streamingContent ++ concatChunks chunks } := by
  induction chunks generalizing st with
  | nil => simp [runClient, concatChunks]
  | cons c rest ih =>
      have hstep :
          runClient cid st ((c :: rest).map ServerEvent.streamChunk) =
            runClient cid { st with streamingContent := st.streamingContent ++ c }
              (rest.map ServerEvent.streamChunk) := rfl
      rw [hstep, ih]
      simp [concatChunks, String.append_assoc]

/-- C1: the modelled stream relay for a turn emits, in order, exactly one
`stream_start`, one `stream_chunk` per token (at least one for a nonempty
token stream), then one `stream_end`; processed by the client's
`handleMessage` dispatch and the `Chat` callbacks, the chunk contents
accumulate, in delivery order, to exactly the `stream_end` content, and the
assistant message finally appended to the client state carries exactly that
content, which is the persisted assistant content. -/
theorem stream_relay_contract (cid savedId : String) (chunks : List String)
    (h : chunks ≠ []) (st : ClientState) :
    relayEvents chunks savedId =
      ServerEvent.streamStart ::
        (chunks.map ServerEvent.streamChunk ++
          [ServerEvent.streamEnd savedId (persistedAssistantContent chunks)]) ∧
    1 ≤ (chunks.map ServerEvent.streamChunk).length ∧
    (runClient cid st
        (ServerEvent.streamStart :: chunks.map ServerEvent.streamChunk)).streamingContent
      = persistedAssistantContent chunks ∧
    runClient cid st (relayEvents chunks savedId) =
      { st with
        isStreaming := false
        streamingContent := ""
        messages := st.messages ++
          [{ id := savedId, conversation_id := cid, role := "assistant",
             content := persistedAssistantContent chunks }] } := by
  have hmid : ∀ st' : ClientState,
      runClient cid st' (ServerEvent.streamStart :: chunks.map ServerEvent.streamChunk) =
        { st' with isStreaming := true, streamingContent := concatChunks chunks } := by
    intro st'
    have hstep :
        runClient cid st' (ServerEvent.streamStart :: chunks.map ServerEvent.streamChunk) =
          runClient cid { st' with isStreaming := true, streamingContent := "" }
            (chunks.map ServerEvent.streamChunk) := rfl
    rw [hstep, runClient_streamChunks]
    simp
  refine ⟨rfl, ?_, ?_, ?_⟩
  · simp only [List.length_map]
    exact List.length_pos.mpr h
  · rw [hmid st]
    rfl
  · have hsplit :
        runClient cid st (relayEvents chunks savedId) =
          runClient cid
            (runClient cid st
              (ServerEvent.streamStart :: chunks.map ServerEvent.streamChunk))
            [ServerEvent.streamEnd savedId (concatChunks chunks)] := by
      unfold relayEvents runClient
      rw [← List.foldl_append]
    rw [hsplit, hmid st]
    rfl

/-- Witness for C1: a two-token stream delivered to a fresh client appends
one assistant message holding the concatenated content. -/
theorem stream_relay_contract_witness :
    runClient "c1" { messages := [], streamingContent := "", isStreaming := false }
        (relayEvents ["Hel", "lo"] "m1") =
      { ({ messages := [], streamingContent := "", isStreaming := false } : ClientState) with
        isStreaming := false
        streamingContent := ""
        messages :=
          ({ messages := [], streamingContent := "", isStreaming := false } :
            ClientState).messages ++
            [{ id := "m1", conversation_id := "c1", role := "assistant",
               content := persistedAssistantContent ["Hel", "lo"] }] } :=
  (stream_relay_contract "c1" "m1" ["Hel", "lo"] (by decide)
    { messages := [], streamingContent := "", isStreaming := false }).2.2.2

end ChatDocument
